import Mathlib

/-!
Verification of the MUSE 2.0 documentation/validation scripts.

This file gives a shallow embedding of the Python helper scripts in
`docs/file_formats/format_docs/` (`csv.py`, `table.py`, `toml.py`),
`docs/file_formats/generate_docs.py` and `schemas/validate.py`, and proves
properties of the embedded definitions.

Conventions:
* Parsed YAML documents are represented by the inductive type `Yaml`
  (Python `None` is `Yaml.null`; Python dicts are ordered association lists,
  matching Python's insertion-ordered dicts).
* Python exceptions are represented by the `Exn` type and fallible code
  returns `Except`.
* File-system interaction is factored out: functions take the directory
  listing and file contents as explicit arguments.
-/

set_option maxHeartbeats 1000000

namespace MUSE

/-- A parsed YAML value. Python `None` is `null`; dicts are insertion-ordered
association lists, as in Python. -/
inductive Yaml where
  | null
  | bool (b : Bool)
  | int (n : Int)
  | str (s : String)
  | list (xs : List Yaml)
  | map (kvs : List (String × Yaml))

/-- Python exceptions that the embedded scripts can raise. -/
inductive Exn where
  | keyError (key : String)
  | typeError (msg : String)
  | attributeError (msg : String)
  | assertionError
deriving DecidableEq

/-- Lookup in an insertion-ordered dict (Python `d[k]` / `d.get(k)` support). -/
def alookup {β : Type} (k : String) : List (String × β) → Option β
  | [] => none
  | (k', v) :: rest => if k' = k then some v else alookup k rest

/-- Python `d.get(k, dflt)`. -/
def getd (k : String) (m : List (String × Yaml)) (dflt : Yaml) : Yaml :=
  (alookup k m).getD dflt

/-- Python `d[k] = v`: overwrite in place if the key exists, else append
(insertion-ordered dict semantics). -/
def setKey {β : Type} (k : String) (v : β) (m : List (String × β)) : List (String × β) :=
  if (alookup k m).isSome then
    m.map (fun p => if p.1 = k then (k, v) else p)
  else
    m ++ [(k, v)]

/-- Remove a key from a dict (used to state "treated as if the key were absent"). -/
def removeKey {β : Type} (k : String) : List (String × β) → List (String × β)
  | [] => []
  | p :: m => if p.1 = k then removeKey k m else p :: removeKey k m

/-- Python truthiness of a parsed YAML value. -/
def truthy : Yaml → Bool
  | .null => false
  | .bool b => b
  | .int n => n != 0
  | .str s => s != ""
  | .list xs => !xs.isEmpty
  | .map kvs => !kvs.isEmpty

/-- Python `v is None` (identity test against the `None` singleton). -/
def Yaml.isNull : Yaml → Bool
  | .null => true
  | _ => false

/-- Python `v == s` for a string literal `s`: equality holds only when `v`
is itself a string equal to `s`. -/
def Yaml.eqStr : Yaml → String → Bool
  | .str t, s => t = s
  | _, _ => false

/-- Decimal digit character. -/
def digitChar (d : Nat) : Char := Char.ofNat (48 + d)

/-- Decimal rendering of a natural number, with structural fuel (any fuel
above the digit count gives the full rendering; `natChars` supplies `n + 1`,
which always suffices since `n / 10 < n` for `n ≥ 10`). -/
def natCharsF : Nat → Nat → List Char
  | 0, _ => []
  | fuel + 1, n =>
    if n < 10 then [digitChar n]
    else natCharsF fuel (n / 10) ++ [digitChar (n % 10)]

/-- Decimal rendering of a natural number. -/
def natChars (n : Nat) : List Char := natCharsF (n + 1) n

/-- Decimal rendering of an integer. -/
def intStr (n : Int) : String :=
  if n < 0 then "-" ++ String.mk (natChars n.natAbs) else String.mk (natChars n.natAbs)

/-- Python `str()` of a parsed YAML value (f-string interpolation).
The cases the scripts can reach with repository schemas are exact:
`str()` of a Python string is the string itself, of an int its decimal
digits, of a bool `True`/`False`, of `None` the text `None`. Lists and dicts
(never interpolated by the scripts — the interpolated value is the field's
notes, a string when present) are given placeholder renderings that no
theorem relies on. -/
def pyStr : Yaml → String
  | .null => "None"
  | .bool b => if b then "True" else "False"
  | .int n => intStr n
  | .str s => s
  | .list _ => "[...]"
  | .map _ => "<dict>"

/-- The words PyYAML's YAML 1.1 resolver recognizes as booleans or null
(exact resolver word lists from pyyaml's `Resolver`): a Python string equal
to one of these cannot be emitted in plain style, or it would read back as a
bool/null, so `yaml.dump` single-quotes it. -/
def yamlWordList : List String :=
  ["yes", "Yes", "YES", "no", "No", "NO",
   "true", "True", "TRUE", "false", "False", "FALSE",
   "on", "On", "ON", "off", "Off", "OFF",
   "null", "Null", "NULL", "~"]

/-- ASCII letter test. -/
def isAsciiLetter (c : Char) : Bool :=
  ('a' ≤ c && c ≤ 'z') || ('A' ≤ c && c ≤ 'Z')

/-- Conservative decidable test for strings that PyYAML emits in plain style
unchanged: nonempty, consisting only of ASCII letters, and not one of the
resolver words. Such a string passes pyyaml's scalar analysis (no
indicators, spaces, line breaks or non-printables) and resolves as `str`,
so `yaml.dump` writes it plainly followed by the `\n...\n` document-end
marker. (PyYAML also emits many other strings plainly — e.g. ones with
digits or inner spaces — but no theorem relies on those.) -/
def plainStr (s : String) : Bool :=
  !s.data.isEmpty && s.data.all isAsciiLetter && !(yamlWordList.contains s)

/-- Decidable test for strings that PyYAML single-quotes verbatim: the empty
string and the resolver words. These contain no apostrophes, newlines or
other characters needing escapes or folding, so `yaml.dump s` is exactly a
single-quoted copy of `s` followed by a bare newline (and no `...` marker,
which pyyaml appends only after a plain root scalar). -/
def quotedStr (s : String) : Bool :=
  s.data.isEmpty || yamlWordList.contains s

/-- Embeds `to_yaml_str` from `table.py`:
`yaml.dump(value).removesuffix("\n...\n")`.
Modelled from pyyaml scalar serialization. PyYAML appends the `\n...\n`
document-end marker only after a *plain* root scalar, so `removesuffix`
strips it there and the result is the bare scalar text: integers (decimal),
booleans (`true`/`false`), `None` (`null`) and plain-safe strings. A string
pyyaml must quote keeps its quotes and its bare trailing `"\n"`, which
`removesuffix("\n...\n")` does not strip: `yaml.dump("")` is `"''\n"` and
`yaml.dump("yes")` is `"'yes'\n"`. The model is exact on the `plainStr` and
`quotedStr` string classes (the only ones theorems quantify over); other
strings (which pyyaml may emit plain, folded or escaped) get the same
single-quoted approximation, and compound values a placeholder — neither is
relied on by any theorem. -/
def to_yaml_str (v : Yaml) : String :=
  match v with
  | .null => "null"
  | .bool b => if b then "true" else "false"
  | .int n => intStr n
  | .str s =>
    if plainStr s then s
    else "\x27" ++ s ++ "\x27" ++ "\n"
  | .list _ => "<compound>"
  | .map _ => "<compound>"

/-- Is this value one whose `to_yaml_str` rendering is a plain YAML scalar
(pyyaml plain style, `\n...\n` marker stripped): an integer, a boolean,
null, or a `plainStr` string? -/
def Yaml.plainYaml : Yaml → Bool
  | .null => true
  | .bool _ => true
  | .int _ => true
  | .str s => plainStr s
  | .list _ => false
  | .map _ => false

/-- Python whitespace characters recognized by `str.rstrip()` (ASCII subset). -/
def isPyWs (c : Char) : Bool :=
  c = ' ' || c = '\t' || c = '\n' || c = '\r' || c = '\x0b' || c = '\x0c'

/-- Embeds Python `s.rstrip()`. -/
def pyRstrip (s : String) : String :=
  String.mk ((s.data.reverse.dropWhile isPyWs).reverse)

/-- Embeds `add_full_stop` from `csv.py`:
rstrip the string; return it unchanged if it is empty or already ends in a
full stop, otherwise append one. -/
def add_full_stop (s : String) : String :=
  let t := pyRstrip s
  if t = "" ∨ t.data.getLast? = some '.' then t else t ++ "."

/-- Left-to-right, non-overlapping replacement of the pattern `p :: ps` by
`rep` (Python `str.replace` for a non-empty pattern), on character lists.
The `skip` counter consumes the remaining matched characters after a match
was found and the replacement emitted (the head of the match is consumed by
the step itself, leaving `ps.length` characters to skip). -/
def pyReplace (p : Char) (ps rep : List Char) : Nat → List Char → List Char
  | _, [] => []
  | skip + 1, _ :: s => pyReplace p ps rep skip s
  | 0, c :: s =>
    if (p :: ps).isPrefixOf (c :: s) then rep ++ pyReplace p ps rep ps.length s
    else c :: pyReplace p ps rep 0 s

/-- Embeds Python `s.replace(pat, rep)` (the patterns used in the scripts are
non-empty; an empty pattern leaves the string unchanged). -/
def pyReplaceS (pat rep s : String) : String :=
  match pat.data with
  | [] => s
  | p :: ps => String.mk (pyReplace p ps rep.data 0 s.data)

/-- Embeds the notes post-processing in `fields2table` (`table.py`):
`notes.replace("\n\n", "<br /><br />").replace("\n", " ")` — paragraph breaks
become HTML break markers, remaining newlines collapse to spaces. -/
def notesTransform (s : String) : String :=
  pyReplaceS "\n" " " (pyReplaceS "\n\n" "<br /><br />" s)

/-- One row of the table built by `fields2table` (`table.py`): the dict
`{"Field": ..., "Description": ..., "Notes": ...}` appended to `data` and
passed to `table2md.MarkdownTable.from_dicts`. The `Field` and `Notes` cells
are strings built by the function; the `Description` cell is the raw value
taken from the schema. Rendering of the rows into markdown text by the
external `table2md` library preserves each cell's content. -/
structure Row where
  field : String
  description : Yaml
  notes : String

/-- The notes-cell computation of one iteration of the loop in `fields2table`
(`table.py`): start from `f.get("notes", "")`, prepend the
"Optional. Defaults to ..." sentence when `f.get("default", None)` is not
`None`, then apply the newline replacements (which require the value to be a
string — a non-string raises `AttributeError` on `.replace`). -/
def fieldNotes (notes0 dflt : Yaml) : Except Exn String :=
  let notes1 := if !dflt.isNull
    then Yaml.str ("Optional. Defaults to `" ++ to_yaml_str dflt ++ "`.\n\n" ++ pyStr notes0)
    else notes0
  match notes1 with
  | .str s => pure (notesTransform s)
  | _ => throw (.attributeError "replace")

/-- One iteration of the loop in `fields2table` (`table.py`): build the row
for one field dict, raising `KeyError` when `name` or `description` is
absent. -/
def fieldRow (f : List (String × Yaml)) : Except Exn Row := do
  let notes ← fieldNotes (getd "notes" f (.str "")) (getd "default" f .null)
  let nm ← match alookup "name" f with
    | some v => pure v
    | none => throw (.keyError "name")
  let ds ← match alookup "description" f with
    | some v => pure v
    | none => throw (.keyError "description")
  pure { field := "`" ++ pyStr nm ++ "`", description := ds, notes := notes }

/-- Embeds `fields2table` from `table.py`: map every field dict to its table
row (iterating a non-dict element fails as `f.get` does in Python). The
resulting rows are the `data` list handed to `MarkdownTable.from_dicts`. -/
def fields2table (fields : List Yaml) : Except Exn (List Row) :=
  fields.mapM (fun f => match f with
    | .map m => fieldRow m
    | _ => throw (.attributeError "get"))

/-- Python `sep.join(items)`. -/
def strJoin (sep : String) : List String → String
  | [] => ""
  | [x] => x
  | x :: xs => x ++ sep ++ strJoin sep xs

/-- Embeds `format_notes` from `csv.py`: a list renders one bullet per item,
a string renders a single bullet, anything else renders the empty string;
every bullet text passes through `add_full_stop`. A non-string list item
makes `add_full_stop` fail (`.rstrip()` on a non-string). -/
def format_notes (notes : Yaml) : Except Exn String :=
  match notes with
  | .list xs => do
    let items ← xs.mapM (fun item => match item with
      | .str s => pure (add_full_stop s)
      | _ => throw (Exn.attributeError "rstrip"))
    pure (strJoin "\n" (items.map (fun item => "- " ++ item)))
  | .str s => pure (strJoin "\n" (["- " ++ add_full_stop s]))
  | _ => pure ""

/-- The `File` dataclass from `csv.py`. The `notes` field holds the Python
value bound to `note` after the walrus-`if`: `None` when the key is absent,
the formatted string when the raw value is truthy, and the raw (falsy) value
otherwise. -/
structure File where
  name : String
  description : String
  table : List Row
  notes : Yaml

/-- Outcome of a raised exception: the lines printed before the exception
propagated, and the exception itself. -/
structure Raised where
  printed : List String
  exn : Exn

/-- Python `Path(p).stem`: the final path component without its last
extension. -/
def pathStem (p : String) : String :=
  match p.data.reverse.dropWhile (fun c => c ≠ '.') with
  | [] => p
  | _ :: rest => String.mk rest.reverse

/-- Embeds `load_file` from `csv.py`. The file's parsed YAML contents are
passed in as `data`. The `try` block covers only `fields2table(data["fields"])`;
a `KeyError` raised there prints `MISSING VALUE IN <path>` and re-raises,
while exceptions raised afterwards (in particular a `KeyError` for the
top-level `description` key) propagate with nothing printed. -/
def load_file (path : String) (data : Yaml) : Except Raised File :=
  let tableE : Except Exn (List Row) := do
    let fs ← match data with
      | .map m =>
        match alookup "fields" m with
        | some v => pure v
        | none => throw (Exn.keyError "fields")
      | _ => throw (Exn.typeError "subscript")
    match fs with
    | .list xs => fields2table xs
    | _ => throw (Exn.typeError "iterate")
  match tableE with
  | .error e =>
    .error { printed := match e with
               | .keyError _ => ["MISSING VALUE IN " ++ path]
               | _ => []
             exn := e }
  | .ok table =>
    let name := pathStem path ++ ".csv"
    let m := match data with
      | .map m => m
      | _ => []
    match alookup "description" m with
    | none => .error { printed := [], exn := .keyError "description" }
    | some dv =>
      match dv with
      | .str ds =>
        let desc := add_full_stop ds
        let note0 := getd "notes" m .null
        if truthy note0 then
          match format_notes note0 with
          | .ok ns => .ok { name := name, description := desc, table := table, notes := .str ns }
          | .error e => .error { printed := [], exn := e }
        else
          .ok { name := name, description := desc, table := table, notes := note0 }
      | _ => .error { printed := [], exn := .attributeError "rstrip" }

/-- Shell-style glob matching with `*` wildcards (the only metacharacter used
in the repository's patterns), as performed by `Path.glob`, with structural
fuel: every recursive call shrinks `pat.length + s.length`, so any fuel above
that sum gives the true answer (`globMatch` supplies it). -/
def globMatchF : Nat → List Char → List Char → Bool
  | 0, _, _ => false
  | fuel + 1, pat, s =>
    match pat, s with
    | [], [] => true
    | [], _ :: _ => false
    | '*' :: ps, s =>
      globMatchF fuel ps s ||
        (match s with
         | [] => false
         | _ :: s' => globMatchF fuel ('*' :: ps) s')
    | _ :: _, [] => false
    | p :: ps, c :: s => p = c && globMatchF fuel ps s

/-- Shell-style glob matching with `*` wildcards. -/
def globMatch (pat s : List Char) : Bool :=
  globMatchF (pat.length + s.length + 1) pat s

/-- Embeds `schema_dir.glob(f"{pattern}.yaml")`: the schema directory is
given as its listing (`dir_files`, in enumeration order); matching files are
returned in that order (the enumeration order of `Path.glob` is not
specified, which is why the caller sorts). -/
def glob (dir_files : List String) (pattern : String) : List String :=
  dir_files.filter (fun f => globMatch (pattern ++ ".yaml").data f.data)

/-- Lexicographic comparison of character lists by code point (Python string
`<=`). -/
def charListLe : List Char → List Char → Bool
  | [], _ => true
  | _ :: _, [] => false
  | a :: as, b :: bs => a < b || (a = b && charListLe as bs)

/-- Python string `<=` (lexicographic by code point). -/
def pyStrLe (a b : String) : Bool := charListLe a.data b.data

/-- The path list built for one section by `_load_sections` (`csv.py`): the
per-pattern glob results are concatenated in pattern order and then passed
through `sorted(...)` (Python's stable sort under string `<=`, modelled by
insertion sort, which is also stable). -/
def section_paths (patterns : List String) (dir_files : List String) : List String :=
  List.insertionSort (fun a b => pyStrLe a b = true) (patterns.flatMap (glob dir_files))

/-- Embeds `_load_sections` from `csv.py`: one `Section(title, files)` per
entry of `file_order`, in the insertion order of the `file_order` dict; the
section's files are loaded from the sorted path list. The generator is
materialized as a list (the template consumes it fully). -/
def _load_sections (file_order : List (String × List String))
    (dir_files : List String) (contents : String → Yaml) :
    List (String × List (Except Raised File)) :=
  file_order.map (fun sec =>
    (sec.1, (section_paths sec.2 dir_files).map (fun p => load_file p (contents p))))

/-- The `TOMLInfo` dataclass from `toml.py`. `tables` is the insertion-ordered
dict mapping subtable name (empty string for the root table) to the rendered
table rows; `description` holds the raw `data.get("description", "")`. -/
structure TOMLInfo where
  heading : String
  description : Yaml
  tables : List (String × List Row)

/-- Embeds `toml_table2list` from `toml.py`: for each `(key, value)` of the
properties dict, set `value["name"] = key` (a non-dict value fails on item
assignment) and collect the dicts in order. -/
def toml_table2list (props : List (String × Yaml)) : Except Exn (List (List (String × Yaml))) :=
  props.mapM (fun kv => match kv.2 with
    | .map m => pure (setKey "name" (.str kv.1) m)
    | _ => throw (Exn.typeError "item assignment"))

/-- The dict comprehension in `_load_toml_info` building the subtable dict:
for each property whose `type` equals `"object"` (a property without a
`type` key raises `KeyError`), render `fields2table(toml_table2list(prop["properties"]))`
under the key `prop["name"]`. -/
def subtables (properties : List (List (String × Yaml))) :
    Except Exn (List (String × List Row)) :=
  properties.foldlM (fun acc prop => do
    let ty ← match alookup "type" prop with
      | some v => pure v
      | none => throw (Exn.keyError "type")
    if ty.eqStr "object" then
      let nm ← match alookup "name" prop with
        | some v => pure v
        | none => throw (Exn.keyError "name")
      let ps ← match alookup "properties" prop with
        | some v => pure v
        | none => throw (Exn.keyError "properties")
      let psM ← match ps with
        | .map pm => pure pm
        | _ => throw (Exn.attributeError "items")
      let lst ← toml_table2list psM
      let tbl ← fields2table (lst.map Yaml.map)
      pure (setKey (pyStr nm) tbl acc)
    else
      pure acc) []

/-- Embeds `_load_toml_info` from `toml.py`: build the heading from the
optional `title`, assert the schema's `type` is `"object"`, convert the
top-level `properties` to a list, render the root table, and render one
further table per property of type `object` (one level of subtables); the
subtable dict is merged over `{"": root}` with `|=`. -/
def _load_toml_info (file_name : String) (data : Yaml) : Except Exn TOMLInfo := do
  let m ← match data with
    | .map m => pure m
    | _ => throw (Exn.attributeError "get")
  let title := getd "title" m .null
  let heading := if truthy title
    then pyStr title ++ ": `" ++ file_name ++ "`"
    else "`" ++ file_name ++ "`"
  let ty ← match alookup "type" m with
    | some v => pure v
    | none => throw (Exn.keyError "type")
  if ty.eqStr "object" then pure () else throw Exn.assertionError
  let propsY ← match alookup "properties" m with
    | some v => pure v
    | none => throw (Exn.keyError "properties")
  let propsM ← match propsY with
    | .map pm => pure pm
    | _ => throw (Exn.attributeError "items")
  let properties ← toml_table2list propsM
  let rootTable ← fields2table (properties.map Yaml.map)
  let sub ← subtables properties
  let tables := sub.foldl (fun acc kv => setKey kv.1 kv.2 acc) [("", rootTable)]
  pure { heading := heading, description := getd "description" m (.str ""), tables := tables }

/-- The `SchemaEntry` dataclass from `validate.py`: a bound validator
(abstracted as the function from data-file path to the error-message list it
reports, the result of `Validator.validate` via the external `frictionless`
library) together with the relative data-file path from the manifest. -/
structure SchemaEntry where
  validate : String → List String
  path : String

/-- Embeds `SchemaIndex.validate` from `validate.py`: run every entry's
validator against `data_dir / entry.path` independently, collecting the
non-empty error lists in an insertion-ordered dict keyed by path. -/
def SchemaIndex.validate (entries : List SchemaEntry) (data_dir : String) :
    List (String × List String) :=
  entries.foldl (fun errors entry =>
    let path := data_dir ++ "/" ++ entry.path
    let cur := entry.validate path
    if cur.isEmpty then errors else setKey path cur errors) []

/-- Embeds the reporting loop of `main` in `validate.py` (after argument
parsing; `get_data_dirs` already applied): for each data directory, print a
check-mark line when its manifest validates cleanly, otherwise set the exit
status to 1 and print each failing file's header line followed by its
indented error messages. Returns the exit status and the printed lines. -/
def validateMain (entries : List SchemaEntry) (data_dirs : List String) :
    Nat × List String :=
  data_dirs.foldl (fun acc data_dir =>
    let errors := SchemaIndex.validate entries data_dir
    if errors.isEmpty then
      (acc.1, acc.2 ++ ["✅ " ++ data_dir ++ " is valid!"])
    else
      (1, acc.2 ++ errors.foldl (fun out kv =>
        out ++ (("❌ " ++ kv.1 ++ " has errors:") :: kv.2.map (fun e => "   - " ++ e))) []))
    (0, [])

/-- An element of a document template: literal text or a variable
reference that is substituted at render time. -/
inductive TmplItem where
  | text (s : String)
  | var (name : String)

/-- Modelled from jinja2 (external library): rendering a template against a
variable binding. With the default `Undefined` (`strict = false`), outputting
a missing variable silently produces the empty string; with
`StrictUndefined` (`strict = true`), it raises `UndefinedError`. -/
def jinjaRender (strict : Bool) (vars : List (String × String)) :
    List TmplItem → Except String String
  | [] => .ok ""
  | .text s :: rest => do pure (s ++ (← jinjaRender strict vars rest))
  | .var n :: rest =>
    match alookup n vars with
    | some v => do pure (v ++ (← jinjaRender strict vars rest))
    | none =>
      if strict then .error ("UndefinedError: " ++ n ++ " is undefined")
      else do pure ("" ++ (← jinjaRender strict vars rest))

/-- Embeds the `Environment` construction in `generate_docs.py`
(`Environment(loader=FileSystemLoader(...))`, and likewise in `csv.py`):
no `undefined=StrictUndefined` argument is passed, so the default
non-strict `Undefined` is in effect. -/
def generate_docs_env_strict : Bool := false

/-! ### Helper lemmas about the string model -/

theorem data_mk (l : List Char) : (String.mk l).data = l := rfl

theorem pyRstrip_idem (s : String) : pyRstrip (pyRstrip s) = pyRstrip s := by
  unfold pyRstrip
  congr 1
  simp [List.dropWhile_idempotent]

theorem pyRstrip_concat_dot (t : String) : pyRstrip (t ++ ".") = t ++ "." := by
  apply String.ext
  unfold pyRstrip
  rw [data_mk, String.data_append]
  show ((t.data ++ ['.']).reverse.dropWhile isPyWs).reverse = _
  rw [List.reverse_append]
  show (('.' :: t.data.reverse).dropWhile isPyWs).reverse = _
  rw [List.dropWhile_cons_of_neg (by decide)]
  simp

theorem data_concat_dot (t : String) : (t ++ ".").data = t.data ++ ['.'] := by
  rw [String.data_append]

theorem add_full_stop_eq (s : String) :
    add_full_stop s =
      if pyRstrip s = "" ∨ (pyRstrip s).data.getLast? = some '.' then pyRstrip s
      else pyRstrip s ++ "." := rfl

theorem add_full_stop_ends_dot (s : String) (h : pyRstrip s ≠ "") :
    (add_full_stop s).data.getLast? = some '.' := by
  rw [add_full_stop_eq]
  by_cases hc : pyRstrip s = "" ∨ (pyRstrip s).data.getLast? = some '.'
  · rw [if_pos hc]
    rcases hc with hc | hc
    · exact absurd hc h
    · exact hc
  · rw [if_neg hc, data_concat_dot]
    exact List.getLast?_concat _

theorem add_full_stop_rstrip_fix (s : String) :
    pyRstrip (add_full_stop s) = add_full_stop s := by
  rw [add_full_stop_eq]
  by_cases hc : pyRstrip s = "" ∨ (pyRstrip s).data.getLast? = some '.'
  · rw [if_pos hc]
    exact pyRstrip_idem s
  · rw [if_neg hc]
    exact pyRstrip_concat_dot _

/-- C10: `add_full_stop` is idempotent, and its result is either the empty
string or a string that ends in a full stop and carries no trailing
whitespace (it is a fixed point of `rstrip`). -/
theorem claim_C10 :
    ∀ s : String,
      add_full_stop (add_full_stop s) = add_full_stop s ∧
      (add_full_stop s = "" ∨
        ((add_full_stop s).data.getLast? = some '.' ∧
          pyRstrip (add_full_stop s) = add_full_stop s)) := by
  intro s
  by_cases he : pyRstrip s = ""
  · have hval : add_full_stop s = "" := by
      rw [add_full_stop_eq, if_pos (Or.inl he), he]
    rw [hval]
    exact ⟨rfl, Or.inl rfl⟩
  · have hdot := add_full_stop_ends_dot s he
    have hfix := add_full_stop_rstrip_fix s
    constructor
    · rw [add_full_stop_eq (add_full_stop s), hfix, if_pos (Or.inr hdot)]
    · exact Or.inr ⟨hdot, hfix⟩

/-! ### C7: `format_notes` on a two-element list -/

/-- C7 counterexample: the claim says every bullet ends in a full stop, but
for the list `["", "x"]` the first bullet is the bare `"- "`, which does not
end in a full stop. -/
theorem claim_C7_counterexample :
    format_notes (.list [.str "", .str "x"]) = .ok "- \n- x." ∧
      ("- " : String).data.getLast? ≠ some '.' := by
  exact ⟨rfl, by decide⟩

/-- C7 (amended): `format_notes` on a list of exactly two strings renders
exactly two bullet items, one per list element, joined by a newline, each
passed through `add_full_stop`; a bullet ends in a full stop whenever its
source string is not whitespace-only (for a whitespace-only string the bullet
is the bare `"- "`). -/
theorem claim_C7 :
    ∀ s₁ s₂ : String,
      format_notes (.list [.str s₁, .str s₂]) =
        .ok ("- " ++ add_full_stop s₁ ++ "\n" ++ ("- " ++ add_full_stop s₂)) ∧
      (pyRstrip s₁ ≠ "" → (add_full_stop s₁).data.getLast? = some '.') ∧
      (pyRstrip s₂ ≠ "" → (add_full_stop s₂).data.getLast? = some '.') := by
  intro s₁ s₂
  refine ⟨rfl, add_full_stop_ends_dot s₁, add_full_stop_ends_dot s₂⟩

/-- C7 witness: the amended theorem applied at `["ab", "cd"]`, both bullets
ending in a full stop that the sources lacked. -/
theorem claim_C7_witness :
    format_notes (.list [.str "ab", .str "cd"]) =
      .ok ("- " ++ add_full_stop "ab" ++ "\n" ++ ("- " ++ add_full_stop "cd")) ∧
    (add_full_stop "ab").data.getLast? = some '.' ∧
    (add_full_stop "cd").data.getLast? = some '.' :=
  ⟨(claim_C7 "ab" "cd").1,
   (claim_C7 "ab" "cd").2.1 (by decide),
   (claim_C7 "ab" "cd").2.2 (by decide)⟩

/-! ### Lemmas about `pyReplace` and the notes transformation -/

theorem pyReplace_skip (p : Char) (ps rep : List Char) :
    ∀ u t : List Char, pyReplace p ps rep u.length (u ++ t) = pyReplace p ps rep 0 t := by
  intro u
  induction u with
  | nil => intro t; rfl
  | cons c u ih => intro t; exact ih t

theorem pyReplace_not_head (p : Char) (ps rep : List Char) :
    ∀ l t : List Char, p ∉ l →
      pyReplace p ps rep 0 (l ++ t) = l ++ pyReplace p ps rep 0 t := by
  intro l
  induction l with
  | nil => intro t _; rfl
  | cons c l ih =>
    intro t h
    have hpc : (p == c) = false := beq_false_of_ne (fun he => h (he ▸ List.mem_cons_self c l))
    show pyReplace p ps rep 0 (c :: (l ++ t)) = _
    rw [pyReplace]
    rw [if_neg (by simp [List.isPrefixOf, hpc])]
    rw [ih t (fun hm => h (List.mem_cons_of_mem c hm))]
    rfl

theorem pyReplace_match (p : Char) (ps rep t : List Char) :
    pyReplace p ps rep 0 (p :: ps ++ t) = rep ++ pyReplace p ps rep 0 t := by
  show pyReplace p ps rep 0 (p :: (ps ++ t)) = _
  rw [pyReplace]
  rw [if_pos (show (p :: ps).isPrefixOf (p :: (ps ++ t)) = true from
    List.isPrefixOf_iff_prefix.mpr (List.prefix_append (p :: ps) t))]
  rw [pyReplace_skip p ps rep ps t]

theorem pyReplace_chain (hd rd : List Char) (h : '\n' ∉ hd) :
    pyReplace '\n' [] (" ").data 0
        (pyReplace '\n' ['\n'] ("<br /><br />").data 0 (hd ++ '\n' :: '\n' :: rd)) =
      hd ++ ("<br /><br />").data ++
        pyReplace '\n' [] (" ").data 0
          (pyReplace '\n' ['\n'] ("<br /><br />").data 0 rd) := by
  have h1 : pyReplace '\n' ['\n'] ("<br /><br />").data 0 (hd ++ '\n' :: '\n' :: rd) =
      hd ++ (("<br /><br />").data ++ pyReplace '\n' ['\n'] ("<br /><br />").data 0 rd) := by
    rw [pyReplace_not_head '\n' ['\n'] _ hd _ h]
    congr 1
    exact pyReplace_match '\n' ['\n'] _ rd
  rw [h1, ← List.append_assoc]
  rw [pyReplace_not_head '\n' [] _ (hd ++ ("<br /><br />").data) _ (by
    intro hm
    rcases List.mem_append.mp hm with hm | hm
    · exact h hm
    · revert hm; decide)]

theorem pyReplace_chain_quoted (hd rd : List Char) (h : '\n' ∉ hd) :
    pyReplace '\n' [] (" ").data 0
        (pyReplace '\n' ['\n'] ("<br /><br />").data 0
          (hd ++ '\n' :: '`' :: '.' :: '\n' :: '\n' :: rd)) =
      hd ++ ' ' :: '`' :: '.' :: ("<br /><br />").data ++
        pyReplace '\n' [] (" ").data 0
          (pyReplace '\n' ['\n'] ("<br /><br />").data 0 rd) := by
  rw [pyReplace_not_head '\n' ['\n'] _ hd _ h]
  have h1 : pyReplace '\n' ['\n'] ("<br /><br />").data 0
      ('\n' :: '`' :: '.' :: '\n' :: '\n' :: rd) =
      '\n' :: '`' :: '.' :: ("<br /><br />").data ++
        pyReplace '\n' ['\n'] ("<br /><br />").data 0 rd := by
    simp [pyReplace, List.isPrefixOf]
  rw [h1, pyReplace_not_head '\n' [] _ hd _ h]
  have h2 : pyReplace '\n' [] (" ").data 0
      ('\n' :: '`' :: '.' :: ("<br /><br />").data ++
        pyReplace '\n' ['\n'] ("<br /><br />").data 0 rd) =
      ' ' :: '`' :: '.' :: ("<br /><br />").data ++
        pyReplace '\n' [] (" ").data 0
          (pyReplace '\n' ['\n'] ("<br /><br />").data 0 rd) := by
    simp [pyReplace, List.isPrefixOf]
  rw [h2, List.append_assoc]

theorem data_notesTransform (n : String) :
    (notesTransform n).data =
      pyReplace '\n' [] (" ").data 0
        (pyReplace '\n' ['\n'] ("<br /><br />").data 0 n.data) := rfl

/-! ### No newline appears in the rendered scalar default value -/

theorem digitChar_ne_newline : ∀ d : Nat, d < 10 → digitChar d ≠ '\n' := by decide

theorem nl_not_mem_natCharsF : ∀ fuel n : Nat, '\n' ∉ natCharsF fuel n := by
  intro fuel
  induction fuel with
  | zero => intro n; simp [natCharsF]
  | succ fuel ih =>
    intro n
    rw [natCharsF]
    by_cases h : n < 10
    · rw [if_pos h]
      simp only [List.mem_singleton]
      exact fun he => digitChar_ne_newline n h he.symm
    · rw [if_neg h]
      intro hm
      rcases List.mem_append.mp hm with hm | hm
      · exact ih (n / 10) hm
      · rw [List.mem_singleton] at hm
        exact digitChar_ne_newline (n % 10) (Nat.mod_lt _ (by omega)) hm.symm

theorem nl_not_mem_intStr (n : Int) : '\n' ∉ (intStr n).data := by
  rw [intStr]
  by_cases h : n < 0
  · rw [if_pos h, String.data_append]
    intro hm
    rcases List.mem_append.mp hm with hm | hm
    · revert hm; decide
    · exact nl_not_mem_natCharsF _ _ hm
  · rw [if_neg h]
    exact nl_not_mem_natCharsF _ _

theorem nl_not_mem_to_yaml_str (v : Yaml) (hp : v.plainYaml = true) :
    '\n' ∉ (to_yaml_str v).data := by
  cases v with
  | null => decide
  | bool b => cases b <;> decide
  | int n => exact nl_not_mem_intStr n
  | str s =>
    have hps : plainStr s = true := hp
    rw [to_yaml_str, if_pos hps]
    rw [plainStr] at hps
    simp only [Bool.and_eq_true] at hps
    have hall : s.data.all isAsciiLetter = true := hps.1.2
    intro hm
    have := List.all_eq_true.mp hall _ hm
    revert this; decide
  | list xs => simp [Yaml.plainYaml] at hp
  | map kvs => simp [Yaml.plainYaml] at hp

theorem plainStr_eq_false_of_quoted (s : String) (hq : quotedStr s = true) :
    plainStr s = false := by
  rw [quotedStr] at hq
  simp only [Bool.or_eq_true] at hq
  rw [plainStr]
  rcases hq with h | h
  · simp [h]
  · rw [h]
    simp

theorem nl_not_mem_of_quoted (s : String) (hq : quotedStr s = true) :
    '\n' ∉ s.data := by
  rw [quotedStr] at hq
  simp only [Bool.or_eq_true] at hq
  rcases hq with h | h
  · rw [List.isEmpty_iff.mp h]
    exact List.not_mem_nil _
  · have hm : s ∈ yamlWordList := List.mem_of_elem_eq_true h
    fin_cases hm <;> decide

/-! ### C6 and C9: default values in `fields2table` -/

theorem fieldNotes_default (v : Yaml) (n : String) (hv : v.isNull = false)
    (hs : v.plainYaml = true) :
    fieldNotes (.str n) v =
      .ok ("Optional. Defaults to `" ++ to_yaml_str v ++ "`." ++ "<br /><br />" ++
        notesTransform n) := by
  have hnl : '\n' ∉ (to_yaml_str v).data := nl_not_mem_to_yaml_str v hs
  simp only [fieldNotes, hv, Bool.not_false, if_true]
  show Except.ok (notesTransform
    ("Optional. Defaults to `" ++ to_yaml_str v ++ "`.\n\n" ++ pyStr (.str n))) = _
  apply congrArg
  apply String.ext
  rw [data_notesTransform]
  have hS : ("Optional. Defaults to `" ++ to_yaml_str v ++ "`.\n\n" ++ pyStr (.str n)).data
      = (("Optional. Defaults to `").data ++ (to_yaml_str v).data ++ ['`', '.']) ++
          '\n' :: '\n' :: n.data := by
    simp [pyStr, String.data_append, List.append_assoc,
      show ("`.\n\n" : String).data = ['`', '.', '\n', '\n'] from rfl]
  have hhd : '\n' ∉ ("Optional. Defaults to `").data ++ (to_yaml_str v).data ++ ['`', '.'] := by
    intro hm
    rcases List.mem_append.mp hm with hm | hm
    · rcases List.mem_append.mp hm with hm | hm
      · revert hm; decide
      · exact hnl hm
    · revert hm; decide
  rw [hS, pyReplace_chain _ _ hhd]
  have hR : ("Optional. Defaults to `" ++ to_yaml_str v ++ "`." ++ "<br /><br />" ++
        notesTransform n).data
      = ((("Optional. Defaults to `").data ++ (to_yaml_str v).data ++ ['`', '.']) ++
          ("<br /><br />").data) ++ (notesTransform n).data := by
    simp [String.data_append, List.append_assoc,
      show ("`." : String).data = ['`', '.'] from rfl]
  rw [hR, data_notesTransform]

theorem fieldNotes_quoted (s n : String) (hq : quotedStr s = true) :
    fieldNotes (.str n) (.str s) =
      .ok ("Optional. Defaults to `\x27" ++ s ++ "\x27 `." ++ "<br /><br />" ++
        notesTransform n) := by
  have hps := plainStr_eq_false_of_quoted s hq
  have hnl := nl_not_mem_of_quoted s hq
  simp only [fieldNotes, Yaml.isNull, Bool.not_false, if_true]
  show Except.ok (notesTransform
    ("Optional. Defaults to `" ++ to_yaml_str (.str s) ++ "`.\n\n" ++ pyStr (.str n))) = _
  apply congrArg
  apply String.ext
  rw [data_notesTransform]
  have hS : ("Optional. Defaults to `" ++ to_yaml_str (.str s) ++ "`.\n\n" ++
        pyStr (.str n)).data
      = (("Optional. Defaults to `").data ++ '\x27' :: (s.data ++ ['\x27'])) ++
          '\n' :: '`' :: '.' :: '\n' :: '\n' :: n.data := by
    simp [pyStr, to_yaml_str, hps, String.data_append, List.append_assoc,
      show ("`.\n\n" : String).data = ['`', '.', '\n', '\n'] from rfl,
      show ("\x27" : String).data = ['\x27'] from rfl,
      show ("\n" : String).data = ['\n'] from rfl]
  have hhd : '\n' ∉ ("Optional. Defaults to `").data ++ '\x27' :: (s.data ++ ['\x27']) := by
    intro hm
    rcases List.mem_append.mp hm with hm | hm
    · revert hm; decide
    · rcases List.mem_cons.mp hm with hm | hm
      · exact absurd hm.symm (by decide)
      · rcases List.mem_append.mp hm with hm | hm
        · exact hnl hm
        · revert hm; decide
  rw [hS, pyReplace_chain_quoted _ _ hhd]
  have hR : ("Optional. Defaults to `\x27" ++ s ++ "\x27 `." ++ "<br /><br />" ++
        notesTransform n).data
      = ((("Optional. Defaults to `").data ++ '\x27' :: (s.data ++ ['\x27'])) ++
          ' ' :: '`' :: '.' :: ("<br /><br />").data) ++ (notesTransform n).data := by
    simp [String.data_append, List.append_assoc,
      show ("Optional. Defaults to `\x27" : String).data =
        ("Optional. Defaults to `").data ++ ['\x27'] from rfl,
      show ("\x27 `." : String).data = ['\x27', ' ', '`', '.'] from rfl]
  rw [hR, data_notesTransform]

/-- C6 counterexample: the claim says the Notes cell begins with
"Optional. Defaults to `<value>`." with the value in the schema's native
scalar syntax. For `default: ""` (native scalar syntax two single quotes),
`yaml.dump("")` is `"''\n"` whose trailing newline survives
`removesuffix("\n...\n")` and becomes a space, so the cell reads
"Optional. Defaults to `'' `." — the claimed text
"Optional. Defaults to `''`." is not a prefix of it. -/
theorem claim_C6_counterexample :
    fieldRow [("name", Yaml.str "a"), ("description", Yaml.str "d"),
        ("default", Yaml.str "")] =
      .ok
        { field := "`a`", description := .str "d",
          notes := "Optional. Defaults to `\x27\x27 `.<br /><br />" } ∧
    ("Optional. Defaults to `\x27\x27`." : String).data.isPrefixOf
        ("Optional. Defaults to `\x27\x27 `.<br /><br />" : String).data = false :=
  ⟨rfl, by decide⟩

/-- C6 (amended): a present, non-`None` default is never treated as absent;
the exact text depends on how pyyaml serializes the value. For plain-style
scalars (integers such as `0`, booleans, plain-safe strings) the Notes cell
is exactly "Optional. Defaults to `<value>`." followed by the break marker
and the transformed notes. For a string pyyaml single-quotes (the empty
string, resolver words such as "yes"), the unstripped trailing newline of
`yaml.dump` becomes a space, giving "Optional. Defaults to `<quoted-value> `."
with a space before the closing backtick. -/
theorem claim_C6 :
    (∀ (f : List (String × Yaml)) (v nm ds : Yaml) (n : String),
      alookup "default" f = some v → v.isNull = false → v.plainYaml = true →
      getd "notes" f (.str "") = .str n →
      alookup "name" f = some nm → alookup "description" f = some ds →
      fieldRow f = .ok
        { field := "`" ++ pyStr nm ++ "`", description := ds,
          notes := "Optional. Defaults to `" ++ to_yaml_str v ++ "`." ++ "<br /><br />" ++
            notesTransform n }) ∧
    (∀ (f : List (String × Yaml)) (s : String) (nm ds : Yaml) (n : String),
      alookup "default" f = some (.str s) → quotedStr s = true →
      getd "notes" f (.str "") = .str n →
      alookup "name" f = some nm → alookup "description" f = some ds →
      fieldRow f = .ok
        { field := "`" ++ pyStr nm ++ "`", description := ds,
          notes := "Optional. Defaults to `\x27" ++ s ++ "\x27 `." ++ "<br /><br />" ++
            notesTransform n }) := by
  constructor
  · intro f v nm ds n hdf hv hs hn hnm hds
    have hgd : getd "default" f .null = v := by rw [getd, hdf]; rfl
    rw [fieldRow, hn, hgd, fieldNotes_default v n hv hs, hnm, hds]
    rfl
  · intro f s nm ds n hdf hq hn hnm hds
    have hgd : getd "default" f .null = .str s := by rw [getd, hdf]; rfl
    rw [fieldRow, hn, hgd, fieldNotes_quoted s n hq, hnm, hds]
    rfl

/-- C6 witness: part (a) of the amended theorem applied to a field with
`default: 0` (the Notes cell begins "Optional. Defaults to `0`.") and part
(b) applied to `default: "yes"` (single-quoted value with the trailing space
before the closing backtick). -/
theorem claim_C6_witness :
    (fieldRow [("name", Yaml.str "id"), ("description", Yaml.str "The id"),
        ("notes", Yaml.str "See docs"), ("default", Yaml.int 0)] =
      .ok
        { field := "`id`", description := .str "The id",
          notes := "Optional. Defaults to `0`.<br /><br />See docs" }) ∧
    (fieldRow [("name", Yaml.str "b"), ("description", Yaml.str "B"),
        ("default", Yaml.str "yes")] =
      .ok
        { field := "`b`", description := .str "B",
          notes := "Optional. Defaults to `\x27yes\x27 `.<br /><br />" }) :=
  ⟨claim_C6.1 [("name", Yaml.str "id"), ("description", Yaml.str "The id"),
       ("notes", Yaml.str "See docs"), ("default", Yaml.int 0)]
     (.int 0) (.str "id") (.str "The id") "See docs" rfl rfl rfl rfl rfl rfl,
   claim_C6.2 [("name", Yaml.str "b"), ("description", Yaml.str "B"),
       ("default", Yaml.str "yes")]
     "yes" (.str "b") (.str "B") "" rfl rfl rfl rfl rfl⟩

theorem alookup_removeKey_ne {β : Type} (k k' : String) (h : k ≠ k') :
    ∀ m : List (String × β), alookup k (removeKey k' m) = alookup k m := by
  intro m
  induction m with
  | nil => rfl
  | cons p m ih =>
    rcases p with ⟨a, b⟩
    by_cases ha : a = k'
    · have hak : ¬a = k := fun hc => h (hc.symm.trans ha)
      simp [removeKey, alookup, ha, hak, ih, h, Ne.symm h]
    · by_cases hak : a = k
      · simp [removeKey, alookup, ha, hak, h, Ne.symm h]
      · simp [removeKey, alookup, ha, hak, ih]

theorem alookup_removeKey_self {β : Type} (k : String) :
    ∀ m : List (String × β), alookup k (removeKey k m) = none := by
  intro m
  induction m with
  | nil => rfl
  | cons p m ih =>
    rcases p with ⟨a, b⟩
    by_cases ha : a = k
    · simp [removeKey, ha, ih]
    · simp [removeKey, alookup, ha, ih]

/-- C9: a field whose `default` key is bound to `null` is treated exactly as
if the key were absent (no "Optional. Defaults to" sentence), while other
falsy defaults such as `0` and the empty string do receive the sentence
(the empty string rendered as pyyaml leaves it: single-quoted with the
unstripped trailing newline turned into a space before the closing
backtick). -/
theorem claim_C9 :
    (∀ f : List (String × Yaml), alookup "default" f = some .null →
      fieldRow f = fieldRow (removeKey "default" f)) ∧
    fieldRow [("name", Yaml.str "a"), ("description", Yaml.str "d"),
        ("default", Yaml.int 0)] =
      .ok { field := "`a`", description := .str "d",
            notes := "Optional. Defaults to `0`.<br /><br />" } ∧
    fieldRow [("name", Yaml.str "a"), ("description", Yaml.str "d"),
        ("default", Yaml.str "")] =
      .ok { field := "`a`", description := .str "d",
            notes := "Optional. Defaults to `\x27\x27 `.<br /><br />" } := by
  refine ⟨?_, rfl, rfl⟩
  intro f h
  have h1 : getd "notes" (removeKey "default" f) (.str "") = getd "notes" f (.str "") := by
    rw [getd, getd, alookup_removeKey_ne _ _ (by decide)]
  have h2 : getd "default" f .null = .null := by rw [getd, h]; rfl
  have h3 : getd "default" (removeKey "default" f) .null = .null := by
    rw [getd, alookup_removeKey_self]; rfl
  have h4 : alookup "name" (removeKey "default" f) = alookup "name" f :=
    alookup_removeKey_ne _ _ (by decide) f
  have h5 : alookup "description" (removeKey "default" f) = alookup "description" f :=
    alookup_removeKey_ne _ _ (by decide) f
  rw [fieldRow, fieldRow, h1, h2, h3, h4, h5]

/-- C9 witness: the theorem applied to a field with `default: null` — the row
is the same as for the field with the `default` key removed. -/
theorem claim_C9_witness :
    fieldRow [("default", Yaml.null), ("name", Yaml.str "a"), ("description", Yaml.str "d")] =
      fieldRow (removeKey "default"
        [("default", Yaml.null), ("name", Yaml.str "a"), ("description", Yaml.str "d")]) :=
  claim_C9.1 _ rfl

/-! ### C1: error reporting in `load_file` -/

/-- C1 counterexample: the claim says a schema with a `fields` key but no
top-level `description` key makes `load_file` fail with an error identifying
the schema file path. In fact the `description` subscript sits outside the
`try` block, so the failure is a bare `KeyError` naming only the missing key;
nothing mentioning the path is printed and the exception does not carry it. -/
theorem claim_C1_counterexample :
    load_file "input/agents.yaml"
        (.map [("fields", .list
          [.map [("name", Yaml.str "id"), ("description", Yaml.str "The id")]])]) =
      .error { printed := [], exn := .keyError "description" } := rfl

/-- C1 (amended): `load_file` identifies the offending schema file path
(printing `MISSING VALUE IN <path>`) only for a `KeyError` raised inside the
`try` block — in particular a missing `fields` key; a schema whose `fields`
key is present and renderable but whose top-level `description` key is absent
fails with a bare `KeyError("description")` that does not identify the path. -/
theorem claim_C1 :
    (∀ (path : String) (m : List (String × Yaml)), alookup "fields" m = none →
      load_file path (.map m) =
        .error { printed := ["MISSING VALUE IN " ++ path], exn := .keyError "fields" }) ∧
    (∀ (path : String) (m : List (String × Yaml)) (xs : List Yaml) (rows : List Row),
      alookup "fields" m = some (.list xs) → fields2table xs = .ok rows →
      alookup "description" m = none →
      load_file path (.map m) =
        .error { printed := [], exn := .keyError "description" }) := by
  constructor
  · intro path m h
    rw [load_file, h]
    rfl
  · intro path m xs rows h1 h2 h3
    simp only [load_file, h1, pure_bind, h2, h3]

/-- C1 witness: the amended theorem applied to a schema with no `fields` key
(path identified) and to a schema with `fields` but no `description`
(bare `KeyError`, no path). -/
theorem claim_C1_witness :
    load_file "input/assets.yaml" (.map [("description", Yaml.str "d")]) =
      .error { printed := ["MISSING VALUE IN input/assets.yaml"], exn := .keyError "fields" } ∧
    load_file "input/regions.yaml" (.map [("fields", .list [])]) =
      .error { printed := [], exn := .keyError "description" } :=
  ⟨claim_C1.1 "input/assets.yaml" [("description", Yaml.str "d")] rfl,
   claim_C1.2 "input/regions.yaml" [("fields", Yaml.list [])] [] [] rfl rfl rfl⟩

/-! ### C2 and C8: file and section ordering in `_load_sections` -/

/-- C2 counterexample: the claim says a file matched by an earlier glob
pattern always precedes a file matched by a later pattern. With patterns
`["b*", "a*"]` over files `a1.yaml`, `b1.yaml`, the section lists `a1.csv`
before `b1.csv`: the concatenated glob results are re-sorted globally, so the
later pattern's match comes first. -/
theorem claim_C2_counterexample :
    (_load_sections [("S", ["b*", "a*"])] ["a1.yaml", "b1.yaml"]
        (fun _ => .map [("fields", .list
            [.map [("name", Yaml.str "n"), ("description", Yaml.str "d")]]),
          ("description", Yaml.str "desc.")])).map
        (fun sec => (sec.1, sec.2.map (fun r => match r with
          | .ok fl => fl.name
          | .error _ => "")))
      = [("S", ["a1.csv", "b1.csv"])] ∧
    (["a1.csv", "b1.csv"] : List String) ≠ ["b1.csv", "a1.csv"] :=
  ⟨rfl, by decide⟩

theorem charListLe_total : ∀ a b : List Char, charListLe a b = true ∨ charListLe b a = true := by
  intro a
  induction a with
  | nil => intro b; left; rfl
  | cons x as ih =>
    intro b
    cases b with
    | nil => right; rfl
    | cons y bs =>
      rcases lt_trichotomy x y with h | h | h
      · left; simp [charListLe, h]
      · subst h
        rcases ih bs with h' | h'
        · left; simp [charListLe, h']
        · right; simp [charListLe, h']
      · right; simp [charListLe, h]

theorem charListLe_trans :
    ∀ a b c : List Char, charListLe a b = true → charListLe b c = true →
      charListLe a c = true := by
  intro a
  induction a with
  | nil => intro b c _ _; rfl
  | cons x as ih =>
    intro b c hab hbc
    cases b with
    | nil => simp [charListLe] at hab
    | cons y bs =>
      cases c with
      | nil => simp [charListLe] at hbc
      | cons z cs =>
        simp only [charListLe, Bool.or_eq_true, Bool.and_eq_true, decide_eq_true_eq] at hab hbc ⊢
        rcases hab with hab | ⟨hab, hab'⟩
        · rcases hbc with hbc | ⟨hbc, _⟩
          · exact Or.inl (lt_trans hab hbc)
          · exact Or.inl (hbc ▸ hab)
        · rcases hbc with hbc | ⟨hbc, hbc'⟩
          · exact Or.inl (hab ▸ hbc)
          · exact Or.inr ⟨hab.trans hbc, ih bs cs hab' hbc'⟩

/-- C2 (amended): within a section, files appear in lexical (string `<=`)
order over the union of all the patterns' matches — the per-pattern glob
results are concatenated and then sorted globally, so the caller's pattern
order does not influence the final file order (it only determines which
files are included, with multiplicity). -/
theorem claim_C2 :
    ∀ patterns dir_files : List String,
      (section_paths patterns dir_files).Sorted (fun a b => pyStrLe a b = true) ∧
      (section_paths patterns dir_files).Perm (patterns.flatMap (glob dir_files)) := by
  intro patterns dir_files
  haveI hTot : IsTotal String (fun a b => pyStrLe a b = true) :=
    ⟨fun a b => charListLe_total a.data b.data⟩
  haveI hTrans : IsTrans String (fun a b => pyStrLe a b = true) :=
    ⟨fun a b c => charListLe_trans a.data b.data c.data⟩
  exact ⟨List.sorted_insertionSort _ _, List.perm_insertionSort _ _⟩

/-- C8: sections are emitted in the caller-specified order of the
`file_order` mapping, not alphabetically; in the concrete scenario with
sections `B` (pattern `b*`) and `A` (pattern `a*`) over files `a1`, `a2`,
`b1`, section `B` (containing `b1`) precedes section `A` (containing
`a1`, `a2`). -/
theorem claim_C8 :
    (∀ (file_order : List (String × List String)) (dfs : List String)
        (c : String → Yaml),
      (_load_sections file_order dfs c).map Prod.fst = file_order.map Prod.fst) ∧
    (_load_sections [("B", ["b*"]), ("A", ["a*"])] ["a1.yaml", "a2.yaml", "b1.yaml"]
        (fun _ => .map [("fields", .list
            [.map [("name", Yaml.str "n"), ("description", Yaml.str "d")]]),
          ("description", Yaml.str "desc.")])).map
        (fun sec => (sec.1, sec.2.map (fun r => match r with
          | .ok fl => fl.name
          | .error _ => "")))
      = [("B", ["b1.csv"]), ("A", ["a1.csv", "a2.csv"])] := by
  constructor
  · intro file_order dfs c
    simp [_load_sections]
  · rfl

/-! ### C3: nesting depth in the TOML schema loader -/

/-- C3 counterexample: the claim says an object nested inside a subtable
raises an explicit unsupported-feature error. In fact `_load_toml_info`
returns successfully on such a schema: the doubly-nested object `b` is
rendered as an ordinary row of subtable `a`, and `b`'s own properties are
silently ignored (no table for `b`, no error). -/
theorem claim_C3_counterexample :
    _load_toml_info "model.toml"
        (.map [("type", Yaml.str "object"),
          ("properties", .map
            [("a", .map [("type", Yaml.str "object"), ("description", Yaml.str "A"),
              ("properties", .map
                [("b", .map [("type", Yaml.str "object"), ("description", Yaml.str "B"),
                  ("properties", .map
                    [("c", .map [("description", Yaml.str "C")])])])])])])]) =
      .ok
        { heading := "`model.toml`", description := .str "",
          tables := [("", [{ field := "`a`", description := .str "A", notes := "" }]),
                     ("a", [{ field := "`b`", description := .str "B", notes := "" }])] } :=
  rfl

/-- C3 (amended): one level of subtables is supported, but deeper nesting is
not detected: for every inner properties mapping, a schema with an object
`b` (holding those properties) nested inside subtable `a` loads successfully,
rendering `b` as an ordinary row of `a`'s table and ignoring `b`'s inner
properties entirely — no unsupported-feature error is raised. -/
theorem claim_C3 :
    ∀ inner : List (String × Yaml),
      _load_toml_info "model.toml"
          (.map [("type", Yaml.str "object"),
            ("properties", .map
              [("a", .map [("type", Yaml.str "object"), ("description", Yaml.str "A"),
                ("properties", .map
                  [("b", .map [("type", Yaml.str "object"), ("description", Yaml.str "B"),
                    ("properties", .map inner)])])])])]) =
        .ok
          { heading := "`model.toml`", description := .str "",
            tables := [("", [{ field := "`a`", description := .str "A", notes := "" }]),
                       ("a", [{ field := "`b`", description := .str "B", notes := "" }])] } :=
  fun _ => rfl

/-! ### C4: missing template variables render blank, not an error -/

/-- C4 counterexample: the claim says referencing an unsupplied variable
fails at render time. With the environment that `generate_docs.py` actually
constructs (default non-strict `Undefined`), rendering a template that
outputs the unsupplied variable `sections` succeeds and produces the empty
string. -/
theorem claim_C4_counterexample :
    jinjaRender generate_docs_env_strict [] [.var "sections"] = .ok "" := rfl

/-- C4 (amended): the document generator's jinja environment is built without
`StrictUndefined`, so rendering never fails on a missing variable: every
template renders successfully, and a reference to an unsupplied variable
emits the empty string in its place. -/
theorem claim_C4 :
    (∀ (vars : List (String × String)) (t : List TmplItem),
      ∃ s, jinjaRender generate_docs_env_strict vars t = .ok s) ∧
    (∀ (n : String) (vars : List (String × String)), alookup n vars = none →
      jinjaRender generate_docs_env_strict vars [.var n] = .ok "") := by
  constructor
  · intro vars t
    induction t with
    | nil => exact ⟨"", rfl⟩
    | cons item rest ih =>
      rcases ih with ⟨s, hs⟩
      cases item with
      | text str => exact ⟨str ++ s, by simp [jinjaRender, hs]⟩
      | var n =>
        cases halk : alookup n vars with
        | some v => exact ⟨v ++ s, by simp [jinjaRender, halk, hs]⟩
        | none =>
          refine ⟨"" ++ s, ?_⟩
          simp only [generate_docs_env_strict] at hs
          simp [generate_docs_env_strict, jinjaRender, halk, hs]
  · intro n vars h
    simp [generate_docs_env_strict, jinjaRender, h]

/-- C4 witness: the amended theorem applied to the variable `sections` left
unbound — rendering succeeds with empty output. -/
theorem claim_C4_witness :
    jinjaRender generate_docs_env_strict [("toml_info", "x")] [.var "sections"] = .ok "" :=
  claim_C4.2 "sections" [("toml_info", "x")] rfl

/-! ### C5: per-directory validation reporting -/

/-- C5 counterexample: the claim says the valid file is still reported as
valid. With a two-entry manifest where `good.csv` validates and `bad.csv`
fails, the run exits with status 1 and prints only the failing file's error
lines: no line reports the valid file (the check-mark line is printed per
data directory, and only when every entry passes). -/
theorem claim_C5_counterexample :
    validateMain
        [{ validate := fun _ => [], path := "good.csv" },
         { validate := fun _ => ["row 2 bad"], path := "bad.csv" }] ["data"] =
      (1, ["❌ data/bad.csv has errors:", "   - row 2 bad"]) ∧
    "✅ data/good.csv is valid!" ∉
      (validateMain
        [{ validate := fun _ => [], path := "good.csv" },
         { validate := fun _ => ["row 2 bad"], path := "bad.csv" }] ["data"]).2 ∧
    "✅ data is valid!" ∉
      (validateMain
        [{ validate := fun _ => [], path := "good.csv" },
         { validate := fun _ => ["row 2 bad"], path := "bad.csv" }] ["data"]).2 := by
  refine ⟨rfl, ?_, ?_⟩
  · show "✅ data/good.csv is valid!" ∉
      (["❌ data/bad.csv has errors:", "   - row 2 bad"] : List String)
    decide
  · show "✅ data is valid!" ∉
      (["❌ data/bad.csv has errors:", "   - row 2 bad"] : List String)
    decide

theorem str_head_ne {a b : String} (h : a.data.head? ≠ b.data.head?) : a ≠ b :=
  fun he => h (he ▸ rfl)

/-- C5 (amended): with a two-entry manifest where the first entry validates
and the second fails, the run exits with status 1 and the output consists of
exactly the failing file's header line and its error messages — both entries
are validated (the failure is recorded even though another entry passed),
but the valid file is not individually reported: the check-mark line is
per data directory and is absent whenever any entry fails. -/
theorem claim_C5 :
    ∀ (e₁ e₂ : SchemaEntry) (d : String) (errs : List String),
      e₁.validate (d ++ "/" ++ e₁.path) = [] →
      e₂.validate (d ++ "/" ++ e₂.path) = errs →
      errs ≠ [] →
      validateMain [e₁, e₂] [d] =
        (1, ("❌ " ++ (d ++ "/" ++ e₂.path) ++ " has errors:") ::
          errs.map (fun e => "   - " ++ e)) ∧
      ("✅ " ++ d ++ " is valid!") ∉ (validateMain [e₁, e₂] [d]).2 := by
  intro e₁ e₂ d errs h1 h2 hne
  rcases List.exists_cons_of_ne_nil hne with ⟨e, es, rfl⟩
  have hmain : validateMain [e₁, e₂] [d] =
      (1, ("❌ " ++ (d ++ "/" ++ e₂.path) ++ " has errors:") ::
        (e :: es).map (fun e => "   - " ++ e)) := by
    simp [validateMain, SchemaIndex.validate, setKey, alookup, h1, h2]
  refine ⟨hmain, ?_⟩
  rw [hmain]
  intro hmem
  rcases List.mem_cons.mp hmem with hmem | hmem
  · exact str_head_ne (by
      simp [String.data_append, show ("✅ " : String).data = ['✅', ' '] from rfl,
        show ("❌ " : String).data = ['❌', ' '] from rfl, List.cons_append]) hmem
  · rcases List.mem_map.mp hmem with ⟨x, _, hx⟩
    exact str_head_ne (by
      simp [String.data_append, show ("✅ " : String).data = ['✅', ' '] from rfl,
        show ("   - " : String).data = [' ', ' ', ' ', '-', ' '] from rfl,
        List.cons_append]) hx.symm

/-- C5 witness: the amended theorem applied to a concrete two-entry manifest
with one valid and one failing file. -/
theorem claim_C5_witness :
    validateMain
        [{ validate := fun _ => [], path := "x.csv" },
         { validate := fun _ => ["type error in row 3"], path := "y.csv" }] ["model"] =
      (1, ("❌ " ++ ("model" ++ "/" ++ "y.csv") ++ " has errors:") ::
        (["type error in row 3"].map (fun e => "   - " ++ e))) ∧
    ("✅ " ++ "model" ++ " is valid!") ∉
      (validateMain
        [{ validate := fun _ => [], path := "x.csv" },
         { validate := fun _ => ["type error in row 3"], path := "y.csv" }] ["model"]).2 :=
  claim_C5
    { validate := fun _ => [], path := "x.csv" }
    { validate := fun _ => ["type error in row 3"], path := "y.csv" }
    "model" ["type error in row 3"] rfl rfl (by decide)

end MUSE
